import Mathlib

/-!
Verification development for the daily-stock-tracker repository.

The development shallowly embeds the price-resolution, report-formatting and
ticker-parsing code of the repository (src/streamlit_app.py, src/daily_script.py,
src/tickers_config.py, src/portfolio_config.py) as executable Lean definitions and
proves the specified properties about them.

Modelling conventions:
* Python floats are modelled by `PyFloat`: an exact rational for ordinary values
  plus the special values NaN, +inf, -inf.  `pd.notna` is `pdNotna` (false only
  on NaN).  CPython's decimal formatting/rounding operates on the binary double;
  here it is modelled on the exact decimal value, which agrees on the decimal
  inputs used throughout.
* Python string primitives (`strip`, `upper`, `split`, `replace`, `in`,
  `startswith`, `join`) are modelled by structurally recursive functions over the
  character list of a `String`, following CPython semantics (whitespace is the
  ASCII whitespace set; upper-casing is per character).
* Exceptions are modelled with `Except`: an `Except.error` value at an external
  call site stands for that call raising, and the embedding routes it exactly the
  way the corresponding `try/except` in the source does.
* The behaviour of the external market-data source (yfinance) during one call of
  the resolver is captured by an environment record (`Env` for streamlit_app.py,
  `DEnv` for daily_script.py) whose fields are the outcomes of the individual
  external interactions the source code performs.
-/

namespace StockTracker

/-! ### Python string primitives -/

/-- ASCII whitespace, as stripped by Python `str.strip()`. -/
def isPySpace (c : Char) : Bool :=
  c = ' ' || c = '\t' || c = '\n' || c = '\r' || c = '\x0b' || c = '\x0c'

/-- Python `str.strip()`: remove leading and trailing whitespace. -/
def pyStrip (s : String) : String :=
  ⟨((s.data.dropWhile isPySpace).reverse.dropWhile isPySpace).reverse⟩

/-- Python `str.upper()` (per-character upper-casing). -/
def pyUpper (s : String) : String :=
  ⟨s.data.map Char.toUpper⟩

/-- Helper for `pySplitChar`: accumulates the current piece (reversed). -/
def splitCharAux (c : Char) (acc : List Char) : List Char → List (List Char)
  | [] => [acc.reverse]
  | x :: xs => if x = c then acc.reverse :: splitCharAux c [] xs else splitCharAux c (x :: acc) xs

/-- Python `str.split(sep)` for a one-character separator: `"".split(",") = [""]`,
`"a,,b".split(",") = ["a", "", "b"]`. -/
def pySplitChar (c : Char) (s : String) : List String :=
  (splitCharAux c [] s.data).map String.mk

/-- Python `c in s` for a one-character needle. -/
def pyContainsChar (c : Char) (s : String) : Bool :=
  s.data.any (fun x => x = c)

/-- Python `s.startswith(p)` for a one-character prefix. -/
def pyStartsWithChar (c : Char) (s : String) : Bool :=
  match s.data with
  | [] => false
  | x :: _ => x = c

/-- Python `s.split(c, 1)[0]`: the part of `s` before the first occurrence of
`c` (all of `s` if `c` does not occur). -/
def pyTakeUntil (c : Char) (s : String) : String :=
  ⟨s.data.takeWhile (fun x => x ≠ c)⟩

/-- Python `s.replace(old, new)` for one-character `old` and `new`. -/
def pyReplaceChar (old new : Char) (s : String) : String :=
  ⟨s.data.map (fun x => if x = old then new else x)⟩

/-! ### Python float values and numeric formatting -/

/-- Model of a Python float value: an exact rational, or one of the IEEE special
values NaN, +infinity, -infinity. -/
inductive PyFloat where
  | finite : ℚ → PyFloat
  | nan : PyFloat
  | posInf : PyFloat
  | negInf : PyFloat
deriving DecidableEq, Repr

/-- `pandas.notna` on a float: false exactly on NaN.  Note it is true on ±inf. -/
def pdNotna : PyFloat → Bool
  | .nan => false
  | _ => true

/-- Whether a Python float is a finite real number (excludes NaN and ±inf). -/
def isFiniteFloat : PyFloat → Bool
  | .finite _ => true
  | _ => false

/-- Round-half-to-even of the fraction `a / b` (for `0 < b`), as CPython rounds
decimals (`round(x, n)` and `"%.2f"` both round half to even). -/
def roundHalfEvenInt (a b : ℤ) : ℤ :=
  let f := a.fdiv b
  let r2 := 2 * (a - f * b)
  if r2 < b then f
  else if b < r2 then f + 1
  else if f % 2 = 0 then f else f + 1

/-- The integer nearest to `q * 100` (half to even): the hundredths value used
by 2-decimal fixed-point formatting. -/
def cents (q : ℚ) : ℤ :=
  roundHalfEvenInt (q.num * 100) (q.den : ℤ)

/-- Model of CPython `f"{x:.2f}"` on a finite float whose value is the exact
decimal `q`: fixed-point with exactly two fractional digits, rounding half to
even. -/
def fmt2 (q : ℚ) : String :=
  let c := cents q
  let n : ℕ := c.natAbs
  (if c < 0 then "-" else "") ++ toString (n / 100) ++ "." ++
    String.mk [Nat.digitChar (n / 10 % 10), Nat.digitChar (n % 10)]

/-- CPython `f"{x:.2f}"` on a general float (`nan`/`inf`/`-inf` print as such). -/
def pyFmt2 : PyFloat → String
  | .finite q => fmt2 q
  | .nan => "nan"
  | .posInf => "inf"
  | .negInf => "-inf"

/-- Fractional decimal digits of `r / d` (0 ≤ r < d), stopping at remainder 0;
`fuel` bounds the number of digits produced. -/
def fracDigits : Nat → Nat → Nat → List Nat
  | 0, _, _ => []
  | fuel + 1, r, d => if r = 0 then [] else (r * 10 / d) :: fracDigits fuel (r * 10 % d) d

/-- Model of CPython `str(x)` for a float whose value is the short terminating
decimal `q` (the shortest-roundtrip repr prints exactly that decimal, with at
least one fractional digit, e.g. `str(50.0) = "50.0"`).  Only such values reach
this function in the embedded program (they arise from `round(x, 4)`). -/
def decRepr (q : ℚ) : String :=
  let n : ℕ := q.num.natAbs
  let ds := fracDigits 25 (n % q.den) q.den
  (if q < 0 then "-" else "") ++ toString (n / q.den) ++ "." ++
    (if ds.isEmpty then "0" else String.mk (ds.map Nat.digitChar))

/-- CPython `str(x)` on a general float. -/
def pyRepr : PyFloat → String
  | .finite q => decRepr q
  | .nan => "nan"
  | .posInf => "inf"
  | .negInf => "-inf"

/-- Python `round(x, 4)` on a float (round half to even; NaN and ±inf are
returned unchanged). -/
def round4 : PyFloat → PyFloat
  | .finite q => .finite (mkRat (roundHalfEvenInt (q.num * 10000) (q.den : ℤ)) 10000)
  | v => v

/-! ### src/streamlit_app.py: PriceResult and get_last_price -/

/-- The `PriceResult` dataclass of src/streamlit_app.py (lines 15-19). -/
structure PriceResult where
  ticker : String
  last_price : Option PyFloat
  currency : Option String
  status : String
deriving DecidableEq, Repr

/-- Behaviour of the `fast_info` object obtained in the Tier-1 block of
`get_last_price` (src/streamlit_app.py lines 43-52), in the case where
`getattr(ticker, "fast_info", None)` evaluated without raising and produced a
truthy object.  `currencyResult` is the outcome of `fi.get("currency")` and
`lastPriceResult` the outcome of `fi.get("last_price")` followed by the
`float(price_val)` conversion; `Except.error` means that step raised (the raise
is caught by the surrounding `try/except`). -/
structure FastInfoEnv where
  hasGet : Bool
  currencyResult : Except Unit (Option String)
  lastPriceResult : Except Unit (Option PyFloat)

/-- External behaviour of one `get_last_price` call (src/streamlit_app.py):
* `tickerCtor`: the `yf.Ticker(t)` construction; `Except.error name` means it
  raised an exception whose type name is `name` (caught by the outer handler).
* `fastInfo`: evaluation of `getattr(ticker, "fast_info", None)`; `.error` means
  it raised, `.ok none` means the result was falsy, `.ok (some f)` a truthy
  object behaving as `f`.
* `history`: the `ticker.history(period="5d", interval="1d", auto_adjust=False)`
  call made by `_price_from_history`; `.error` means it raised, `.ok none` that
  it returned `None` or an empty frame, `.ok (some closes)` a frame whose
  `"Close"` column holds `closes` in chronological order (missing values are
  `PyFloat.nan`). -/
structure Env where
  tickerCtor : Except String Unit
  fastInfo : Except Unit (Option FastInfoEnv)
  history : Except Unit (Option (List PyFloat))

/-- Tier 1 of `get_last_price` (src/streamlit_app.py lines 43-52): the
`fast_info` block inside its `try/except`.  Returns the `price` and `currency`
local variables as they stand when the block (or its exception handler) is done.
A raise after `currency` was assigned keeps the assigned currency, exactly as in
the source. -/
def tier1 (fi : Except Unit (Option FastInfoEnv)) : Option PyFloat × Option String :=
  match fi with
  | .error _ => (none, none)
  | .ok none => (none, none)
  | .ok (some f) =>
    if f.hasGet then
      match f.currencyResult with
      | .error _ => (none, none)
      | .ok cur =>
        match f.lastPriceResult with
        | .error _ => (none, cur)
        | .ok none => (none, cur)
        | .ok (some v) => (some v, cur)
    else (none, none)

/-- `_price_from_history` (src/streamlit_app.py lines 22-30).  `dropna()` removes
NaN entries, `.iloc[-1]` takes the last remaining one; if none remain the
`IndexError` (like any other exception) is caught and `None` is returned. -/
def _price_from_history (h : Except Unit (Option (List PyFloat))) : Option PyFloat :=
  match h with
  | .error _ => none
  | .ok none => none
  | .ok (some closes) => (closes.filter (fun v => pdNotna v)).getLast?

/-- The two-tier price lookup inside `get_last_price` (src/streamlit_app.py
lines 43-57): Tier 1 first; only if it left `price` as `None` is
`_price_from_history` consulted.  The currency is whatever Tier 1 recorded. -/
def resolvePrice (fi : Except Unit (Option FastInfoEnv))
    (h : Except Unit (Option (List PyFloat))) : Option PyFloat × Option String :=
  let pc := tier1 fi
  match pc.1 with
  | some v => (some v, pc.2)
  | none => (_price_from_history h, pc.2)

/-- `get_last_price` (src/streamlit_app.py lines 33-64). -/
def get_last_price (ticker_str : String) (env : Env) : PriceResult :=
  let t := pyUpper (pyStrip ticker_str)
  if t.isEmpty then
    ⟨ticker_str, none, none, "empty ticker"⟩
  else
    match env.tickerCtor with
    | .error e => ⟨t, none, none, "error: " ++ e⟩
    | .ok _ =>
      match resolvePrice env.fastInfo env.history with
      | (none, cur) => ⟨t, none, cur, "invalid ticker or no data"⟩
      | (some v, cur) =>
        if pdNotna v then ⟨t, some v, cur, "ok"⟩
        else ⟨t, none, cur, "invalid ticker or no data"⟩

/-! ### src/streamlit_app.py: fetch_prices and format_copy_block -/

/-- One row of the DataFrame built by `fetch_prices` (src/streamlit_app.py
lines 67-81): the price is rounded to 4 decimal places, the other fields are
copied from the `PriceResult`. -/
structure Row where
  ticker : String
  last_price : Option PyFloat
  currency : Option String
  status : String
deriving DecidableEq, Repr

/-- The row `fetch_prices` builds from one `PriceResult`. -/
def rowOf (r : PriceResult) : Row :=
  ⟨r.ticker, r.last_price.map round4, r.currency, r.status⟩

/-- `fetch_prices` (src/streamlit_app.py lines 67-81); `env t` is the external
behaviour met by the `get_last_price` call for ticker `t`. -/
def fetch_prices (tickers : List String) (env : String → Env) : List Row :=
  tickers.map (fun t => rowOf (get_last_price t (env t)))

/-- The line `format_copy_block` renders for one row (src/streamlit_app.py
lines 84-90).  `pd.notna(None) = False`, so a missing price always takes the
`N/A` branch; an `ok` row prints `str(row["last_price"])` - the float repr of
the 4-decimal-rounded price, not a fixed-point rendering. -/
def copyLine (row : Row) : String :=
  match row.last_price with
  | some v =>
    if row.status = "ok" && pdNotna v then row.ticker ++ ": $" ++ pyRepr v
    else row.ticker ++ ": N/A (" ++ row.status ++ ")"
  | none => row.ticker ++ ": N/A (" ++ row.status ++ ")"

/-- The `lines` list built by `format_copy_block` before joining. -/
def formatCopyBlockLines (rows : List Row) : List String :=
  rows.map copyLine

/-- `format_copy_block` (src/streamlit_app.py lines 83-91). -/
def format_copy_block (rows : List Row) : String :=
  String.intercalate "\n" (formatCopyBlockLines rows)

/-! ### src/daily_script.py: build_message_body -/

/-- Behaviour of `fast_info` in `build_message_body` (src/daily_script.py lines
26-31): whether `"last_price" in fast_info` holds, and the value of
`fast_info["last_price"]` (after `float`). -/
structure DFastInfo where
  hasLastPriceKey : Bool
  lastPrice : Option PyFloat

/-- External behaviour of one per-ticker iteration of `build_message_body`
(src/daily_script.py lines 21-43):
* `tickerCtor`: the `yf.Ticker(t)` construction (a raise reaches the per-ticker
  `except`, yielding an `Error` line);
* `fastInfo`: `getattr(stock, "fast_info", None)`; `.error` means this (or the
  subsequent key test / indexing / `float`) raised inside the inner `try`;
* `history`: the `stock.history(...)` call; `.error` means it raised (this call
  is NOT individually guarded, so the raise reaches the per-ticker `except`);
  `.ok closes` a frame whose `"Close"` column holds `closes` (the empty list for
  an empty frame). -/
structure DEnv where
  tickerCtor : Except Unit Unit
  fastInfo : Except Unit (Option DFastInfo)
  history : Except Unit (List PyFloat)

/-- The fast-path price of `build_message_body` (src/daily_script.py lines
25-31): `price` after the inner `try/except` block. -/
def dTier1 (fi : Except Unit (Option DFastInfo)) : Option PyFloat :=
  match fi with
  | .error _ => none
  | .ok none => none
  | .ok (some f) => if f.hasLastPriceKey then f.lastPrice else none

/-- The price resolution of one `build_message_body` iteration (src/daily_script.py
lines 22-36): fast path, then history if `price` is still `None`.  `.error`
means an exception reached the per-ticker `except Exception` handler (history
raise, or `IndexError` from `.iloc[-1]` when `dropna()` left nothing). -/
def dResolve (env : DEnv) : Except Unit (Option PyFloat) :=
  match env.tickerCtor with
  | .error _ => .error ()
  | .ok _ =>
    match dTier1 env.fastInfo with
    | some v => .ok (some v)
    | none =>
      match env.history with
      | .error _ => .error ()
      | .ok closes =>
        if closes.isEmpty then .ok none
        else
          match (closes.filter (fun v => pdNotna v)).getLast? with
          | some v => .ok (some v)
          | none => .error ()

/-- The line `build_message_body` appends for one (non-blank) ticker
(src/daily_script.py lines 38-43): `t: $<price:.2f>` on success, `t: Error`
when no price was found or an exception reached the per-ticker handler. -/
def dLine (t : String) (env : DEnv) : String :=
  match dResolve env with
  | .ok (some v) => t ++ ": $" ++ pyFmt2 v
  | _ => t ++ ": Error"

/-- The per-ticker lines appended by the loop of `build_message_body`
(src/daily_script.py lines 16-43): one line per ticker that is non-blank after
`strip().upper()` (blank tickers are skipped by `continue`). -/
def bodyTickerLines (tickers : List String) (env : String → DEnv) : List String :=
  tickers.filterMap (fun ticker =>
    let t := pyUpper (pyStrip ticker)
    if t.isEmpty then none else some (dLine t (env t)))

/-- The `lines` list built by `build_message_body` (src/daily_script.py lines
12-43) before joining: a header, a blank line, then the per-ticker lines. -/
def buildMessageBodyLines (tickers : List String) (env : String → DEnv)
    (now : String) : List String :=
  ("Daily Stock Update (" ++ now ++ ")") :: "" :: bodyTickerLines tickers env

/-- `build_message_body` (src/daily_script.py lines 12-45). -/
def build_message_body (tickers : List String) (env : String → DEnv)
    (now : String) : String :=
  String.intercalate "\n" (buildMessageBodyLines tickers env now)

/-! ### src/portfolio_config.py and the spec's RenderReport -/

/-- The `Holding` dataclass of src/portfolio_config.py (lines 7-21). -/
structure Holding where
  ticker : String
  avg_cost : ℚ
  shares : Option ℚ
deriving DecidableEq, Repr

/-- Modelled from the spec: `RenderReport` with portfolio annotation (spec
section 4.3).  The report variant that annotates a resolved price with a P/L
percentage from the `Holding` configuration is not among the files under src/
(src/portfolio_config.py holds only the `Holding` declaration and the portfolio
constants; the renderer in src/daily_script.py carries no P/L suffix).  Per the
spec: an `ok` result with a matching holding of positive `avg_cost` renders
`<ticker>: $<price, 2 decimals>  (P/L <sign><percent, 2 decimals>%)` with
`percent = (price - avg_cost) / avg_cost * 100` and an explicit sign; otherwise
the line is `<ticker>: $<price, 2 decimals>`. -/
def renderReportLine (t : String) (price : ℚ) (holdings : String → Option Holding) : String :=
  match holdings t with
  | none => t ++ ": $" ++ fmt2 price
  | some h =>
    if 0 < h.avg_cost then
      let pct := (price - h.avg_cost) / h.avg_cost * 100
      t ++ ": $" ++ fmt2 price ++ "  (P/L " ++ (if pct < 0 then "-" else "+") ++
        fmt2 |pct| ++ "%)"
    else t ++ ": $" ++ fmt2 price

/-! ### src/tickers_config.py: parse_tickers -/

/-- The `cleaned_lines` loop of `parse_tickers` (src/tickers_config.py lines
17-26): split into lines, strip, drop empty lines and `#`-comment lines,
truncate at an inline `#` and re-strip, keep the non-empty remainders.
(Line splitting is modelled on the newline character; a carriage return paired
with it is removed by the subsequent strip.) -/
def cleanedLines (raw : String) : List String :=
  (pySplitChar '\n' raw).filterMap (fun l =>
    let line := pyStrip l
    if line.isEmpty || pyStartsWithChar '#' line then none
    else
      let line2 := if pyContainsChar '#' line then pyStrip (pyTakeUntil '#' line) else line
      if line2.isEmpty then none else some line2)

/-- The `parts` list of `parse_tickers` (src/tickers_config.py lines 28-31):
each cleaned line is split on commas and every piece stripped and upper-cased
(the `replace("\n", ",")` is kept although lines hold no newline). -/
def rawParts (raw : String) : List String :=
  (cleanedLines raw).flatMap (fun line =>
    ((pySplitChar ',' (pyReplaceChar '\n' ',' line)).map (fun p => pyUpper (pyStrip p))))

/-- The non-empty tokens fed into deduplication (src/tickers_config.py line 31). -/
def tokenStream (raw : String) : List String :=
  (rawParts raw).filter (fun p => !p.isEmpty)

/-- The dedup loop of `parse_tickers` (src/tickers_config.py lines 33-39): keep
a token only if it has not been seen; `seen` models the `seen` set. -/
def dedupeAux (seen : List String) : List String → List String
  | [] => []
  | t :: rest => if t ∈ seen then dedupeAux seen rest else t :: dedupeAux (t :: seen) rest

/-- `parse_tickers` (src/tickers_config.py lines 10-39). -/
def parse_tickers (raw : String) : List String :=
  dedupeAux [] (tokenStream raw)

/-! ### Concrete environments used by witnesses and counterexamples -/

/-- Source behaviour whose fast path returns an infinite last price. -/
def envInfC1 : Env := ⟨.ok (), .ok (some ⟨true, .ok none, .ok (some .posInf)⟩), .ok none⟩

/-- Source behaviour whose fast path returns price 10 and currency USD. -/
def envC2 : Env := ⟨.ok (), .ok (some ⟨true, .ok (some "USD"), .ok (some (.finite 10))⟩), .ok none⟩

/-- Source behaviour with no fast path and a 5-day history with NaN gaps. -/
def envC3 : Env := ⟨.ok (), .ok none, .ok (some [.finite 1, .nan, .finite 2, .nan])⟩

/-- Source behaviour yielding nothing anywhere. -/
def envC8 : Env := ⟨.ok (), .ok none, .ok none⟩

/-- Source behaviour raising everywhere (ticker construction raises RuntimeError). -/
def envC8b : Env := ⟨.error "RuntimeError", .error (), .error ()⟩

/-- Source behaviour whose fast path supplies a currency but no price, and whose
history is empty. -/
def envC10 : Env := ⟨.ok (), .ok (some ⟨true, .ok (some "EUR"), .ok none⟩), .ok none⟩

/-- Source behaviour whose fast path returns price 50 with no currency. -/
def envC6 : Env := ⟨.ok (), .ok (some ⟨true, .ok none, .ok (some (.finite 50))⟩), .ok none⟩

/-- Daily-script source behaviour yielding nothing (no fast info, empty frame). -/
def denvNone : DEnv := ⟨.ok (), .ok none, .ok []⟩

/-- Daily-script source behaviour whose fast path returns price 50. -/
def denv50 : DEnv := ⟨.ok (), .ok (some ⟨true, some (.finite 50)⟩), .ok []⟩

/-- A holdings map with a single entry: VRT at average cost 100. -/
def hsVRT : String → Option Holding :=
  fun s => if s = "VRT" then some ⟨"VRT", 100, none⟩ else none

/-! ### Helper lemmas -/

lemma resolvePrice_def (fi : Except Unit (Option FastInfoEnv))
    (h : Except Unit (Option (List PyFloat))) :
    resolvePrice fi h =
      (match (tier1 fi).1 with
       | some v => (some v, (tier1 fi).2)
       | none => (_price_from_history h, (tier1 fi).2)) := rfl

lemma get_last_price_def (s : String) (env : Env) :
    get_last_price s env =
      (if (pyUpper (pyStrip s)).isEmpty then ⟨s, none, none, "empty ticker"⟩
       else
         match env.tickerCtor with
         | .error e => ⟨pyUpper (pyStrip s), none, none, "error: " ++ e⟩
         | .ok _ =>
           match resolvePrice env.fastInfo env.history with
           | (none, cur) => ⟨pyUpper (pyStrip s), none, cur, "invalid ticker or no data"⟩
           | (some v, cur) =>
             if pdNotna v then ⟨pyUpper (pyStrip s), some v, cur, "ok"⟩
             else ⟨pyUpper (pyStrip s), none, cur, "invalid ticker or no data"⟩) := rfl

lemma error_prefix_ne_ok (e : String) : "error: " ++ e ≠ "ok" := by
  intro hc
  have hl := congrArg String.length hc
  rw [String.length_append] at hl
  have h7 : "error: ".length = 7 := rfl
  have h2 : "ok".length = 2 := rfl
  omega

lemma bodyTickerLines_eq_filter_map (ts : List String) (envd : String → DEnv) :
    bodyTickerLines ts envd =
      (ts.filter (fun t => !(pyUpper (pyStrip t)).isEmpty)).map
        (fun t => dLine (pyUpper (pyStrip t)) (envd (pyUpper (pyStrip t)))) := by
  induction ts with
  | nil => rfl
  | cons a t ih =>
    simp only [bodyTickerLines, List.filterMap_cons, List.filter_cons] at *
    cases h : (pyUpper (pyStrip a)).isEmpty <;> simp [h, ih]

lemma mem_dedupeAux (x : String) : ∀ (l seen : List String),
    x ∈ dedupeAux seen l ↔ x ∈ l ∧ x ∉ seen
  | [], seen => by simp [dedupeAux]
  | t :: rest, seen => by
    by_cases h : t ∈ seen
    · simp only [dedupeAux, if_pos h, mem_dedupeAux x rest seen, List.mem_cons]
      constructor
      · rintro ⟨hx, hs⟩
        exact ⟨Or.inr hx, hs⟩
      · rintro ⟨rfl | hx, hs⟩
        · exact (hs h).elim
        · exact ⟨hx, hs⟩
    · simp only [dedupeAux, if_neg h, List.mem_cons, mem_dedupeAux x rest (t :: seen)]
      constructor
      · rintro (rfl | ⟨hx, hs⟩)
        · exact ⟨Or.inl rfl, h⟩
        · exact ⟨Or.inr hx, fun hxs => hs (Or.inr hxs)⟩
      · rintro ⟨hx | hx, hs⟩
        · exact Or.inl hx
        · by_cases hxt : x = t
          · exact Or.inl hxt
          · exact Or.inr ⟨hx, fun hxs => hxs.elim hxt hs⟩

lemma nodup_dedupeAux : ∀ (l seen : List String), (dedupeAux seen l).Nodup
  | [], _ => by simp [dedupeAux]
  | t :: rest, seen => by
    by_cases h : t ∈ seen
    · simpa only [dedupeAux, if_pos h] using nodup_dedupeAux rest seen
    · simp only [dedupeAux, if_neg h]
      rw [List.nodup_cons]
      refine ⟨?_, nodup_dedupeAux rest (t :: seen)⟩
      intro hmem
      exact ((mem_dedupeAux t rest (t :: seen)).mp hmem).2 (List.mem_cons_self t seen)

lemma pairwise_dedupeAux : ∀ (l seen : List String),
    List.Pairwise (fun a b => l.indexOf a < l.indexOf b) (dedupeAux seen l)
  | [], _ => by simp [dedupeAux]
  | t :: rest, seen => by
    by_cases h : t ∈ seen
    · simp only [dedupeAux, if_pos h]
      refine (pairwise_dedupeAux rest seen).imp_of_mem ?_
      intro a b ha hb hab
      have haz := (mem_dedupeAux a rest seen).mp ha
      have hbz := (mem_dedupeAux b rest seen).mp hb
      have hat : t ≠ a := fun he => haz.2 (he ▸ h)
      have hbt : t ≠ b := fun he => hbz.2 (he ▸ h)
      rw [List.indexOf_cons_ne _ hat, List.indexOf_cons_ne _ hbt]
      exact Nat.succ_lt_succ hab
    · simp only [dedupeAux, if_neg h]
      refine List.Pairwise.cons ?_ ?_
      · intro b hb
        have hbz := (mem_dedupeAux b rest (t :: seen)).mp hb
        have hbt : t ≠ b := fun he => hbz.2 (he ▸ List.mem_cons_self t seen)
        rw [List.indexOf_cons_self, List.indexOf_cons_ne _ hbt]
        exact Nat.succ_pos _
      · refine (pairwise_dedupeAux rest (t :: seen)).imp_of_mem ?_
        intro a b ha hb hab
        have haz := (mem_dedupeAux a rest (t :: seen)).mp ha
        have hbz := (mem_dedupeAux b rest (t :: seen)).mp hb
        have hat : t ≠ a := fun he => haz.2 (he ▸ List.mem_cons_self t seen)
        have hbt : t ≠ b := fun he => hbz.2 (he ▸ List.mem_cons_self t seen)
        rw [List.indexOf_cons_ne _ hat, List.indexOf_cons_ne _ hbt]
        exact Nat.succ_lt_succ hab

/-! ### Claims about get_last_price -/

/-- Claim C1, counterexample.  The claim states that a `PriceResult` with
`status = ok` never carries an infinite price.  But the final check in
`get_last_price` is `pd.notna(price)`, which is true on +inf: when the Tier-1
snapshot reports `last_price = inf`, the result has `status = "ok"` and
`last_price = +inf`, which is not a finite number. -/
theorem ok_with_infinite_price :
    (get_last_price "AAPL" envInfC1).status = "ok" ∧
    (get_last_price "AAPL" envInfC1).last_price = some PyFloat.posInf ∧
    isFiniteFloat PyFloat.posInf = false := by
  refine ⟨?_, ?_, rfl⟩ <;> decide

/-- Claim C1, amended: for every `PriceResult` returned by `get_last_price`,
`status = "ok"` if and only if the price is present and is a non-NaN value
(the code checks `pd.notna`, which admits ±infinity, so finiteness is not
guaranteed). -/
theorem ok_iff_notna_price (s : String) (env : Env) :
    (get_last_price s env).status = "ok" ↔
      ∃ v, (get_last_price s env).last_price = some v ∧ pdNotna v = true := by
  rw [get_last_price_def]
  cases hemp : (pyUpper (pyStrip s)).isEmpty with
  | true => simp
  | false =>
    simp only [Bool.false_eq_true, if_false]
    cases henv : env.tickerCtor with
    | error e => simp [error_prefix_ne_ok e]
    | ok u =>
      rcases hr : resolvePrice env.fastInfo env.history with ⟨p, cur⟩
      cases p with
      | none => simp
      | some v =>
        cases hv : pdNotna v with
        | true => simp [hv]
        | false => simp [hv]

/-- Claim C2: when the Tier-1 fast-path snapshot yields a usable (present,
non-NaN) last price `P` and currency `C`, `get_last_price` returns
`{price = P, currency = C, status = "ok"}`, and the Tier-2 history fallback is
not consulted: the result is the same whatever the history call would do, so
the fallback can never overwrite the Tier-1 price. -/
theorem fast_path_preferred (s : String) (env : Env) (P : PyFloat) (C : Option String)
    (hne : (pyUpper (pyStrip s)).isEmpty = false)
    (hctor : env.tickerCtor = .ok ())
    (ht : tier1 env.fastInfo = (some P, C))
    (hP : pdNotna P = true) :
    get_last_price s env = ⟨pyUpper (pyStrip s), some P, C, "ok"⟩ ∧
    ∀ h : Except Unit (Option (List PyFloat)),
      get_last_price s ⟨env.tickerCtor, env.fastInfo, h⟩ = get_last_price s env := by
  have hres : ∀ h, resolvePrice env.fastInfo h = (some P, C) := by
    intro h
    rw [resolvePrice_def, ht]
  constructor
  · rw [get_last_price_def]
    simp [hne, hctor, hres env.history, hP]
  · intro h
    rw [get_last_price_def, get_last_price_def]
    simp [hne, hctor, hres env.history, hres h, hP]

/-- Claim C2, witness: a concrete source behaviour whose fast path yields price
10 and currency USD. -/
theorem fast_path_preferred_witness :
    get_last_price "aapl" envC2 = ⟨"AAPL", some (.finite 10), some "USD", "ok"⟩ :=
  (fast_path_preferred "aapl" envC2 (.finite 10) (some "USD")
    (by decide) rfl rfl rfl).1

/-- Claim C3: when Tier 1 yields no usable price (its `price` variable is still
`None`) and the 5-day daily history holds at least one non-NaN close, the
result has `status = "ok"` and its price is the chronologically last non-NaN
close of the window. -/
theorem history_fallback_last_close (s : String) (env : Env) (closes : List PyFloat)
    (hne : (pyUpper (pyStrip s)).isEmpty = false)
    (hctor : env.tickerCtor = .ok ())
    (ht : (tier1 env.fastInfo).1 = none)
    (hh : env.history = .ok (some closes))
    (hnz : closes.filter (fun v => pdNotna v) ≠ []) :
    (get_last_price s env).status = "ok" ∧
    (get_last_price s env).last_price = (closes.filter (fun v => pdNotna v)).getLast? := by
  obtain ⟨v, hv⟩ : ∃ v, (closes.filter (fun v => pdNotna v)).getLast? = some v := by
    cases hgl : (closes.filter (fun v => pdNotna v)).getLast? with
    | none => exact absurd (List.getLast?_eq_none_iff.mp hgl) hnz
    | some v => exact ⟨v, rfl⟩
  have hvn : pdNotna v = true :=
    (List.mem_filter.mp (List.mem_of_getLast?_eq_some hv)).2
  have hres : resolvePrice env.fastInfo env.history = (some v, (tier1 env.fastInfo).2) := by
    rw [resolvePrice_def, ht, hh]
    simp [_price_from_history, hv]
  rw [get_last_price_def]
  simp [hne, hctor, hres, hvn, hv]

/-- Claim C3, witness: no fast path, history `[1, NaN, 2, NaN]`; the result is
`ok` with the last non-NaN close, 2. -/
theorem history_fallback_last_close_witness :
    (get_last_price "msft" envC3).status = "ok" ∧
    (get_last_price "msft" envC3).last_price =
      ([PyFloat.finite 1, .nan, .finite 2, .nan].filter (fun v => pdNotna v)).getLast? :=
  history_fallback_last_close "msft" envC3 [.finite 1, .nan, .finite 2, .nan]
    (by decide) rfl rfl rfl (by decide)

/-- Claim C7: `get_last_price` is a total function (the embedding returns a
`PriceResult` for every source behaviour, mirroring that every exception path
in the source is caught), and every outcome is classified through the status
field: `empty ticker`, `ok`, `invalid ticker or no data`, or - when the outer
`yf.Ticker` construction raised - `error: <type name>` carrying the fault's
category name with no price and no currency. -/
theorem resolve_status_classified (s : String) (env : Env) :
    ((get_last_price s env).status = "empty ticker" ∧
      (get_last_price s env).last_price = none ∧ (get_last_price s env).currency = none) ∨
    ((get_last_price s env).status = "invalid ticker or no data" ∧
      (get_last_price s env).last_price = none) ∨
    ((get_last_price s env).status = "ok") ∨
    (∃ k, env.tickerCtor = .error k ∧ (get_last_price s env).status = "error: " ++ k ∧
      (get_last_price s env).last_price = none ∧ (get_last_price s env).currency = none) := by
  rw [get_last_price_def]
  cases hemp : (pyUpper (pyStrip s)).isEmpty with
  | true => simp
  | false =>
    simp only [Bool.false_eq_true, if_false]
    cases henv : env.tickerCtor with
    | error e =>
      refine Or.inr (Or.inr (Or.inr ⟨e, rfl, ?_⟩))
      simp
    | ok u =>
      rcases hr : resolvePrice env.fastInfo env.history with ⟨p, cur⟩
      cases p with
      | none => simp
      | some v =>
        cases hv : pdNotna v with
        | true => simp [hv]
        | false => simp [hv]

/-- Claim C8: for every input that is empty or whitespace-only (blank after
`strip()`), `get_last_price` returns `status = "empty ticker"` with no price,
and the external source is never consulted: the result is the same for every
source behaviour. -/
theorem empty_ticker_no_external_call (s : String) (env env2 : Env)
    (h : pyStrip s = "") :
    get_last_price s env = ⟨s, none, none, "empty ticker"⟩ ∧
    get_last_price s env = get_last_price s env2 := by
  have ht : (pyUpper (pyStrip s)).isEmpty = true := by rw [h]; rfl
  rw [get_last_price_def, get_last_price_def, ht]
  simp

/-- Claim C8, witness: the whitespace-only input `"  "` gives `empty ticker`
under both a quiet source and one raising everywhere. -/
theorem empty_ticker_no_external_call_witness :
    get_last_price "  " envC8 = ⟨"  ", none, none, "empty ticker"⟩ ∧
    get_last_price "  " envC8 = get_last_price "  " envC8b :=
  empty_ticker_no_external_call "  " envC8 envC8b (by decide)

/-- Claim C10: a non-ok result can carry a currency.  When Tier 1 records a
currency but leaves the price unset, and the history fallback yields nothing,
the result is `status = "invalid ticker or no data"` with the Tier-1 currency
still present: currency presence does not imply `status = "ok"`. -/
theorem non_ok_result_carries_currency (s : String) (env : Env) (c : String)
    (hne : (pyUpper (pyStrip s)).isEmpty = false)
    (hctor : env.tickerCtor = .ok ())
    (ht : tier1 env.fastInfo = (none, some c))
    (hh : _price_from_history env.history = none) :
    get_last_price s env =
      ⟨pyUpper (pyStrip s), none, some c, "invalid ticker or no data"⟩ := by
  have hres : resolvePrice env.fastInfo env.history = (none, some c) := by
    rw [resolvePrice_def, ht]
    simpa using hh
  rw [get_last_price_def]
  simp [hne, hctor, hres]

/-- Claim C10, witness: fast path supplies currency EUR and no price, history is
empty; the result keeps the currency with a non-ok status. -/
theorem non_ok_result_carries_currency_witness :
    get_last_price "nvda" envC10 =
      ⟨"NVDA", none, some "EUR", "invalid ticker or no data"⟩ :=
  non_ok_result_carries_currency "nvda" envC10 "EUR" (by decide) rfl rfl rfl

/-! ### Claims about the report formatting -/

/-- Claim C4 (renderer modelled from the spec, see `renderReportLine`): for
every ok result whose ticker has a matching holding with `avg_cost > 0`, the
rendered line is `<ticker>: $<price, 2 decimals>  (P/L <sign><percent, 2
decimals>%)` with `percent = (price - avg_cost) / avg_cost * 100` and an
explicit sign; in particular price 123.4 against average cost 100 renders
`VRT: $123.40  (P/L +23.40%)`. -/
theorem render_report_pl_line :
    (∀ (t : String) (price : ℚ) (hs : String → Option Holding) (hd : Holding),
      hs t = some hd → 0 < hd.avg_cost →
      renderReportLine t price hs =
        t ++ ": $" ++ fmt2 price ++ "  (P/L " ++
          (if (price - hd.avg_cost) / hd.avg_cost * 100 < 0 then "-" else "+") ++
          fmt2 |(price - hd.avg_cost) / hd.avg_cost * 100| ++ "%)") ∧
    renderReportLine "VRT" (mkRat 1234 10) hsVRT = "VRT: $123.40  (P/L +23.40%)" := by
  have key : ∀ (t : String) (price : ℚ) (hs : String → Option Holding) (hd : Holding),
      hs t = some hd → 0 < hd.avg_cost →
      renderReportLine t price hs =
        t ++ ": $" ++ fmt2 price ++ "  (P/L " ++
          (if (price - hd.avg_cost) / hd.avg_cost * 100 < 0 then "-" else "+") ++
          fmt2 |(price - hd.avg_cost) / hd.avg_cost * 100| ++ "%)" := by
    intro t price hs hd hmem hpos
    unfold renderReportLine
    rw [hmem]
    simp [hpos]
  refine ⟨key, ?_⟩
  have h := key "VRT" (mkRat 1234 10) hsVRT ⟨"VRT", 100, none⟩ (by decide) (by decide)
  rw [h]
  have hp : (mkRat 1234 10 - (Holding.mk "VRT" 100 none).avg_cost) /
      (Holding.mk "VRT" 100 none).avg_cost * 100 = mkRat 117 5 := by
    show ((mkRat 1234 10 : ℚ) - 100) / 100 * 100 = mkRat 117 5
    rw [Rat.mkRat_eq_divInt, Rat.mkRat_eq_divInt, Rat.divInt_eq_div, Rat.divInt_eq_div]
    norm_num
  rw [hp]
  decide

/-- Claim C4, witness: the general part applied at price 123.4 (= 1234/10) and
the VRT holding at cost 100. -/
theorem render_report_pl_line_witness :
    renderReportLine "VRT" (mkRat 1234 10) hsVRT =
      "VRT" ++ ": $" ++ fmt2 (mkRat 1234 10) ++ "  (P/L " ++
        (if (mkRat 1234 10 - (Holding.mk "VRT" 100 none).avg_cost) /
            (Holding.mk "VRT" 100 none).avg_cost * 100 < 0 then "-" else "+") ++
        fmt2 |(mkRat 1234 10 - (Holding.mk "VRT" 100 none).avg_cost) /
            (Holding.mk "VRT" 100 none).avg_cost * 100| ++ "%)" :=
  render_report_pl_line.1 "VRT" (mkRat 1234 10) hsVRT ⟨"VRT", 100, none⟩
    (by decide) (by decide)

/-- Claim C5, counterexample.  The claim states the rendered report contains
exactly one line per input ticker, blank tickers included.  In
`build_message_body` a blank ticker is skipped by `continue` and produces no
line: on input `["", "VRT"]` the body lines hold only one ticker line, not
two. -/
theorem blank_ticker_line_skipped :
    buildMessageBodyLines ["", "VRT"] (fun _ => denvNone) "2026-10-12 00:00 UTC" =
      ["Daily Stock Update (2026-10-12 00:00 UTC)", "", "VRT: Error"] ∧
    (buildMessageBodyLines ["", "VRT"] (fun _ => denvNone) "2026-10-12 00:00 UTC").drop 2
      ≠ [] ++ [""] ++ ["VRT: Error"] ∧
    ((buildMessageBodyLines ["", "VRT"] (fun _ => denvNone) "2026-10-12 00:00 UTC").drop 2).length
      ≠ (["", "VRT"] : List String).length := by
  refine ⟨by decide, by decide, by decide⟩

/-- Claim C5, amended: `format_copy_block` (on the rows of `fetch_prices`)
renders exactly one line per input ticker, in input order, whatever mix of ok
and non-ok statuses arises - blank tickers included, rendered with their non-ok
status; `build_message_body`, however, renders one line per ticker that is
non-blank after normalization, in input order, and skips blank tickers. -/
theorem report_line_per_ticker (ts : List String) (env : String → Env)
    (envd : String → DEnv) (now : String) :
    formatCopyBlockLines (fetch_prices ts env) =
      ts.map (fun t => copyLine (rowOf (get_last_price t (env t)))) ∧
    (formatCopyBlockLines (fetch_prices ts env)).length = ts.length ∧
    buildMessageBodyLines ts envd now =
      ("Daily Stock Update (" ++ now ++ ")") :: "" ::
        (ts.filter (fun t => !(pyUpper (pyStrip t)).isEmpty)).map
          (fun t => dLine (pyUpper (pyStrip t)) (envd (pyUpper (pyStrip t)))) := by
  refine ⟨?_, ?_, ?_⟩
  · simp [formatCopyBlockLines, fetch_prices, List.map_map]
  · simp [formatCopyBlockLines, fetch_prices]
  · rw [buildMessageBodyLines, bodyTickerLines_eq_filter_map]

/-- Claim C6, counterexample.  The claim states every ok plain-text report line
renders the price with exactly two decimal places, e.g. `TICKER: $50.00`.  The
copy-friendly plain-text block of the interactive viewer
(`format_copy_block`) instead prints the Python `str` of the 4-decimal-rounded
float: for an ok result with price 50.0 the line is `TICKER: $50.0`. -/
theorem copy_block_not_two_decimals :
    format_copy_block (fetch_prices ["TICKER"] (fun _ => envC6)) = "TICKER: $50.0" ∧
    format_copy_block (fetch_prices ["TICKER"] (fun _ => envC6)) ≠ "TICKER: $50.00" := by
  refine ⟨by decide, by decide⟩

/-- Claim C6, amended: the 2-decimal fixed-point rendering (`$X.XX`) holds for
the `build_message_body` report lines (every resolved finite price renders via
`fmt2`, which always carries exactly two fractional digits) and for the
spec-modelled `RenderReport` (price 50 with no holding renders exactly
`TICKER: $50.00`); `format_copy_block`, by contrast, prints the float repr of
the 4-decimal-rounded price (see the counterexample). -/
theorem daily_line_two_decimals :
    (∀ (t : String) (env : DEnv) (q : ℚ), dResolve env = .ok (some (.finite q)) →
      dLine t env = t ++ ": $" ++ fmt2 q) ∧
    (∀ q : ℚ, ∃ a b, fmt2 q = a ++ "." ++ b ∧ b.length = 2) ∧
    renderReportLine "TICKER" 50 (fun _ => none) = "TICKER: $50.00" := by
  refine ⟨?_, ?_, by decide⟩
  · intro t env q h
    unfold dLine
    rw [h]
    rfl
  · intro q
    exact ⟨(if cents q < 0 then "-" else "") ++ toString ((cents q).natAbs / 100),
      String.mk [Nat.digitChar ((cents q).natAbs / 10 % 10), Nat.digitChar ((cents q).natAbs % 10)],
      rfl, rfl⟩

/-- Claim C6, witness for the amended claim: a daily-script resolution that
finds price 50 renders its line through the 2-decimal formatter. -/
theorem daily_line_two_decimals_witness :
    dLine "TICKER" denv50 = "TICKER" ++ ": $" ++ fmt2 50 :=
  daily_line_two_decimals.1 "TICKER" denv50 50 rfl

/-! ### Claim about parse_tickers -/

/-- Claim C9: for every raw input string `parse_tickers` returns a sequence
with no duplicate tokens, ordered by first occurrence in the token stream
(strictly increasing first-occurrence indices), with every token the
stripped-and-upper-cased form of some input piece and non-empty; every token of
the stream appears in the output; and on the concrete example
`"vrt, VRT, COHR\nvrt"` the output is `["VRT", "COHR"]`. -/
theorem parse_tickers_spec :
    (∀ raw : String,
      (parse_tickers raw).Nodup ∧
      List.Pairwise (fun a b => (tokenStream raw).indexOf a < (tokenStream raw).indexOf b)
        (parse_tickers raw) ∧
      (∀ t ∈ parse_tickers raw, t.isEmpty = false ∧ ∃ p, t = pyUpper (pyStrip p)) ∧
      (∀ x ∈ tokenStream raw, x ∈ parse_tickers raw)) ∧
    parse_tickers "vrt, VRT, COHR\nvrt" = ["VRT", "COHR"] := by
  refine ⟨?_, by decide⟩
  intro raw
  refine ⟨nodup_dedupeAux _ _, pairwise_dedupeAux _ _, ?_, ?_⟩
  · intro t ht
    have hmem := ((mem_dedupeAux t (tokenStream raw) []).mp ht).1
    have h1 := List.mem_filter.mp hmem
    refine ⟨by simpa using h1.2, ?_⟩
    have h2 : t ∈ rawParts raw := h1.1
    unfold rawParts at h2
    rcases List.mem_flatMap.mp h2 with ⟨line, _, hline⟩
    rcases List.mem_map.mp hline with ⟨p, _, rfl⟩
    exact ⟨p, rfl⟩
  · intro x hx
    exact (mem_dedupeAux x (tokenStream raw) []).mpr ⟨hx, List.not_mem_nil x⟩

/-- Claim C9, witness: the token `"VRT"` of the example output is non-empty and
is the normalization of some input piece. -/
theorem parse_tickers_spec_witness :
    "VRT".isEmpty = false ∧ ∃ p, "VRT" = pyUpper (pyStrip p) :=
  ((parse_tickers_spec.1 "vrt, VRT, COHR\nvrt").2.2.1) "VRT" (by decide)

end StockTracker
